import Mathlib

/-! # Media catalog: request translation and event notification

A shallow embedding of the gateway (`apiGateway.js`, `resolvers.js`, `schema.js`),
the writable movie service (`movieMicroservice.js`) and the read-only TV-show
service (`tvShowMicroservice.js`).

Conventions of the embedding.

* An `async` handler is a function from its inputs and the outcomes of the
  external collaborators it awaits (store, bus, RPC peer) to the effects it
  performs, listed in program order, and the value it hands to its callback or
  HTTP response.
* A JavaScript `try { .. } catch (e) { .. }` around a collaborator call is a
  `match` on the `Except` outcome of that call.
* Strings are compared through their character lists. `toLowerCase` is modelled
  on strings of ASCII characters, where it lower-cases the letters `A` to `Z`; on
  any other string it is left undefined (`none`).
-/

namespace Tp7Soa

/-! ## Values, records and status codes -/

/-- A scalar JavaScript value, as found in a field of a parsed JSON request body;
`undefined` is the value of an absent field. Numbers are the integers. -/
inductive JsVal where
  | undefined
  | null
  | bool (b : Bool)
  | num (n : Int)
  | str (s : String)
  deriving DecidableEq, Repr

/-- JavaScript truthiness, the test behind `!x`, `if (x)` and `x || y`. -/
def JsVal.truthy : JsVal → Bool
  | .undefined => false
  | .null => false
  | .bool b => b
  | .num n => n != 0
  | .str s => s != ""

/-- The expression `s || dflt` for a string `s`: the empty string is falsy. -/
def strOr (s dflt : String) : String :=
  if s != "" then s else dflt

/-- The expression `q || ""` for an optional string argument `q`. -/
def optOrEmpty (q : Option String) : String :=
  match q with
  | some s => strOr s ""
  | none => ""

namespace grpc.status

/-- Status code `grpc.status.NOT_FOUND`. -/
def NOT_FOUND : Nat := 5

/-- Status code `grpc.status.INTERNAL`. -/
def INTERNAL : Nat := 13

/-- Status code `grpc.status.UNAVAILABLE`. -/
def UNAVAILABLE : Nat := 14

end grpc.status

/-- A stored movie document, as returned by `toObject()`: the schema fields, the
`id` virtual (hex string of `_id`) and the two timestamps. -/
structure Movie where
  id : String
  title : String
  description : String
  createdAt : Nat
  updatedAt : Nat
  deriving DecidableEq, Repr

deriving instance DecidableEq for Except

/-- The error object a service handler passes to its RPC callback:
`{ code, message }`. -/
structure ServiceError where
  code : Nat
  message : String
  deriving DecidableEq, Repr

/-- The error object the RPC client hands to the gateway callbacks; the gateway
reads `err.code` and `err.details`. -/
structure RpcError where
  code : Nat
  details : String
  deriving DecidableEq, Repr

/-- The RPC layer between a service callback and the client callback: a result is
delivered unchanged, an error `{ code, message }` arrives with the same code and
with the message as `details`. -/
def overRpc {α : Type} : Except ServiceError α → Except RpcError α
  | .ok a => .ok a
  | .error e => .error { code := e.code, details := e.message }

/-! ## Event bus -/

/-- The value of one key of an event payload object. -/
inductive FieldVal where
  | text (s : String)
  | item (m : Movie)
  | rpcRequest (title description : String)
  | fields (title description : JsVal)
  deriving DecidableEq, Repr

/-- An event payload object literal: its keys in source order with their values. -/
abbrev Payload := List (String × FieldVal)

/-- The keys of a payload object. -/
def Payload.keys (p : Payload) : List String :=
  p.map Prod.fst

/-- The value under a key of a payload object. -/
def Payload.get (p : Payload) (k : String) : Option FieldVal :=
  (p.find? (fun kv => kv.1 == k)).map Prod.snd

/-- One call of `producer.send`: the topic, the payload that was serialised into
the single message, and whether the broker accepted it (`false`: the call threw). -/
structure BusAttempt where
  topic : String
  payload : Payload
  delivered : Bool
  deriving DecidableEq, Repr

/-- The keys of the event envelope `{ type, data?, error?, requestData? }` as the
specification of the bus gives it. -/
def envelopeKeys : List String :=
  ["type", "data", "error", "requestData"]

/-- The constant `MOVIE_TOPIC`, the same in the movie service and in the gateway. -/
def MOVIE_TOPIC : String := "movies_topic"

/-- The call `producer.send({ topic, messages: [..] })` of the movie service:
resolves when the bus is up, rejects otherwise. -/
def producer.send (busUp : Bool) (topic : String) (payload : Payload) :
    Except String BusAttempt :=
  if busUp then .ok { topic := topic, payload := payload, delivered := true }
  else .error "broker unreachable"

/-- The function `sendMessage` of the movie service: one `producer.send` inside
`try`; the `catch` logs and returns, so nothing is thrown to the caller. The
result is the list of send calls made. -/
def sendMessage (busUp : Bool) (topic : String) (payload : Payload) : List BusAttempt :=
  match producer.send busUp topic payload with
  | .ok sent => [sent]
  | .error _ => [{ topic := topic, payload := payload, delivered := false }]

/-- The call `gatewayProducer.send({ topic, messages: [..] })` of the gateway. -/
def gatewayProducer.send (busUp : Bool) (topic : String) (payload : Payload) :
    Except String BusAttempt :=
  if busUp then .ok { topic := topic, payload := payload, delivered := true }
  else .error "broker unreachable"

/-- The function `sendGatewayKafkaMessage` of the gateway: as `sendMessage`, a
single send whose failure is caught and logged. -/
def sendGatewayKafkaMessage (busUp : Bool) (topic : String) (payload : Payload) :
    List BusAttempt :=
  match gatewayProducer.send busUp topic payload with
  | .ok sent => [sent]
  | .error _ => [{ topic := topic, payload := payload, delivered := false }]

/-! ## Domain store of the movie service -/

/-- The movie collection: its documents in insertion order, and `fault`, which
when set is the message of the error every driver operation rejects with (store
unreachable, write refused). -/
structure Store where
  docs : List Movie
  fault : Option String := none
  deriving DecidableEq, Repr

/-- What the store assigns on a write: the fresh `_id` (as hex string) and the
clock value used for both timestamps. -/
structure SaveEnv where
  oid : String
  now : Nat
  deriving DecidableEq, Repr

/-- The call `new MovieModel({ title, description }).save()`: rejects on a store
fault, otherwise appends the new document and resolves with it. -/
def MovieModel.save (st : Store) (env : SaveEnv) (title description : String) :
    Except String (Movie × Store) :=
  match st.fault with
  | some msg => .error msg
  | none =>
    let doc : Movie :=
      { id := env.oid, title := title, description := description,
        createdAt := env.now, updatedAt := env.now }
    .ok (doc, { st with docs := st.docs ++ [doc] })

/-! ## Movie service: `createMovie` -/

/-- The request message of `createMovie`: both fields are strings (protobuf
defaults make an absent field the empty string). -/
structure CreateMovieRequest where
  title : String
  description : String
  deriving DecidableEq, Repr

/-- One run of a service handler: the sends to the bus, the invocations of the RPC
callback, both in program order, and the store afterwards. -/
structure CreateRun where
  bus : List BusAttempt
  callback : List (Except ServiceError Movie)
  store : Store
  deriving DecidableEq, Repr

/-- The handler `movieService.createMovie`. The `try` block saves, publishes
`MOVIE_CREATED` and calls back with the saved object; the `catch` block publishes
`MOVIE_CREATION_FAILED` and calls back with status `INTERNAL`. -/
def movieService.createMovie (st : Store) (env : SaveEnv) (busUp : Bool)
    (request : CreateMovieRequest) : CreateRun :=
  match MovieModel.save st env request.title request.description with
  | .ok (movieObject, st') =>
    { bus := sendMessage busUp MOVIE_TOPIC
        [("type", .text "MOVIE_CREATED"), ("data", .item movieObject)],
      callback := [.ok movieObject],
      store := st' }
  | .error message =>
    { bus := sendMessage busUp MOVIE_TOPIC
        [("type", .text "MOVIE_CREATION_FAILED"), ("error", .text message),
         ("request", .rpcRequest request.title request.description)],
      callback := [.error { code := grpc.status.INTERNAL, message := message }],
      store := st }

/-! ## Gateway: REST `POST /movies` -/

/-- The parsed JSON body of a request, seen through the two fields the handler
destructures; an absent field is `undefined`. -/
structure ReqBody where
  title : JsVal := .undefined
  description : JsVal := .undefined
  deriving DecidableEq, Repr

/-- The argument object `{ title, description }` of a `createMovie` RPC call. -/
structure CreateMovieCall where
  title : JsVal
  description : JsVal
  deriving DecidableEq, Repr

/-- An effect of a gateway handler: an RPC call on the movie client or a send on
the gateway producer. -/
inductive GwEffect where
  | createMovie (call : CreateMovieCall)
  | getMovie (movie_id : String)
  | searchMovies (query : String)
  | publish (attempt : BusAttempt)
  deriving DecidableEq, Repr

/-- The body of an HTTP response. -/
inductive ResBody where
  | error (msg : String)
  | movie (m : Movie)
  | movies (ms : List Movie)
  deriving DecidableEq, Repr

/-- An HTTP response: status code and JSON body. -/
structure Response where
  status : Nat
  body : ResBody
  deriving DecidableEq, Repr

/-- One run of a gateway REST handler: its effects in program order and the
response it sends. -/
structure GwRun where
  effects : List GwEffect
  response : Response
  deriving DecidableEq, Repr

/-- The RPC calls among the effects of a run. -/
def GwRun.rpcCalls (r : GwRun) : List GwEffect :=
  r.effects.filter (fun e => match e with | .publish _ => false | _ => true)

/-- The event publications attempted in a run. -/
def GwRun.publications (r : GwRun) : List BusAttempt :=
  r.effects.filterMap (fun e => match e with | .publish a => some a | _ => none)

/-- The handler `app.post('/movies')`. `createMovieRpc` is the outcome of the RPC
for a given argument object, `busUp` whether the gateway producer can send. -/
def postMovies (createMovieRpc : CreateMovieCall → Except RpcError Movie) (busUp : Bool)
    (body : ReqBody) : GwRun :=
  let title := body.title
  let description := body.description
  if !title.truthy || !description.truthy then
    { effects := [],
      response := { status := 400, body := .error "Title and description are required" } }
  else
    let call : CreateMovieCall := { title := title, description := description }
    match createMovieRpc call with
    | .error err =>
      let sent := sendGatewayKafkaMessage busUp MOVIE_TOPIC
        [("type", .text "GATEWAY_MOVIE_CREATION_FAILED"), ("error", .text err.details),
         ("requestData", .fields title description)]
      { effects := .createMovie call :: sent.map .publish,
        response := { status := 500, body := .error (strOr err.details "Failed to create movie") } }
    | .ok movie =>
      let sent := sendGatewayKafkaMessage busUp MOVIE_TOPIC
        [("type", .text "GATEWAY_MOVIE_CREATION_REQUEST_PROCESSED"), ("data", .item movie)]
      { effects := .createMovie call :: sent.map .publish,
        response := { status := 201, body := .movie movie } }

/-! ## Strings -/

/-- Lower-casing of the letters `A` to `Z`, every other character unchanged. -/
def asciiLower (s : String) : String :=
  ⟨s.data.map Char.toLower⟩

/-- Whether every character of the string is an ASCII character. -/
def isAscii (s : String) : Bool :=
  s.data.all (fun c => c.toNat < 128)

/-- The method `String.prototype.toLowerCase`, on strings of ASCII characters,
where it lower-cases the letters `A` to `Z`. On a string holding any other
character the result follows the Unicode case tables (U+212A becomes `k`, for
one) and is not modelled: `none`. -/
def toLowerCase (s : String) : Option String :=
  if isAscii s then some (asciiLower s) else none

/-- Whether `needle` occurs in `hay` as a contiguous block, scanning the start
positions from left to right. -/
def occursIn (needle : List Char) : List Char → Bool
  | [] => needle.isPrefixOf []
  | c :: cs => needle.isPrefixOf (c :: cs) || occursIn needle cs

/-- The method `String.prototype.includes`: `s.includes(t)`. -/
def includes (s t : String) : Bool :=
  occursIn t.data s.data

/-- Literal, unanchored, case-insensitive containment of `q` in `text`: the
reading of "contains `q` case-insensitively" used to state the search contract. -/
def containsCI (text q : String) : Prop :=
  q.data.map Char.toLower <:+: text.data.map Char.toLower

instance (text q : String) : Decidable (containsCI text q) :=
  inferInstanceAs (Decidable (_ <:+: _))

/-! ## The store's regular-expression operator

The filter `{ $regex: query, $options: 'i' }` is evaluated by the store with a
Perl-compatible engine. The fragment of the pattern language modelled here is:
ordinary characters, `.`, `*`, `|` and parenthesised groups. Patterns using any
other metacharacter are reported as outside the fragment instead of being given
a meaning. -/

/-- Abstract syntax of a pattern of the modelled fragment; `never` matches
nothing and only arises while matching. -/
inductive Rx where
  | never
  | eps
  | lit (c : Char)
  | dot
  | seq (a b : Rx)
  | alt (a b : Rx)
  | star (a : Rx)
  deriving DecidableEq, Repr

/-- Whether the pattern matches the empty string. -/
def Rx.nullable : Rx → Bool
  | .never => false
  | .eps => true
  | .lit _ => false
  | .dot => false
  | .seq a b => a.nullable && b.nullable
  | .alt a b => a.nullable || b.nullable
  | .star _ => true

/-- Whether the subject character `d` is matched by the pattern character `c`;
`ci` is the case-insensitive option. -/
def litMatches (ci : Bool) (c d : Char) : Bool :=
  if ci then c.toLower == d.toLower else c == d

/-- The pattern matching what remains after the subject character `d` has been
consumed. `.` matches every character except a line feed. -/
def Rx.deriv (ci : Bool) : Rx → Char → Rx
  | .never, _ => .never
  | .eps, _ => .never
  | .lit c, d => if litMatches ci c d then .eps else .never
  | .dot, d => if d == '\n' then .never else .eps
  | .seq a b, d =>
    if a.nullable then .alt (.seq (a.deriv ci d) b) (b.deriv ci d)
    else .seq (a.deriv ci d) b
  | .alt a b, d => .alt (a.deriv ci d) (b.deriv ci d)
  | .star a, d => .seq (a.deriv ci d) (.star a)

/-- Whether the pattern matches some prefix of the subject. -/
def Rx.matchesPrefix (ci : Bool) : Rx → List Char → Bool
  | r, [] => r.nullable
  | r, d :: ds => r.nullable || (r.deriv ci d).matchesPrefix ci ds

/-- Unanchored search: whether the pattern matches starting at some position of
the subject. -/
def Rx.test (ci : Bool) (r : Rx) : List Char → Bool
  | [] => r.matchesPrefix ci []
  | d :: ds => r.matchesPrefix ci (d :: ds) || Rx.test ci r ds

/-- Result of compiling a pattern: a syntax tree, a compile error with the
engine's message, or a pattern outside the modelled fragment. -/
inductive RxParse where
  | ok (r : Rx)
  | invalid (msg : String)
  | unmodelled
  deriving DecidableEq, Repr

/-- An open group (or the top level) during compilation: the alternatives closed
by `|` so far, the atoms of the current alternative with the latest first, and
whether the latest atom already carries a quantifier. -/
structure RxFrame where
  alts : List Rx := []
  atoms : List Rx := []
  quantified : Bool := false
  deriving DecidableEq, Repr

/-- Concatenation of a list of atoms given in pattern order. -/
def Rx.concat : List Rx → Rx
  | [] => .eps
  | a :: rest => .seq a (Rx.concat rest)

/-- Alternation of the closed alternatives followed by the last one. -/
def Rx.choice : List Rx → Rx → Rx
  | [], last => last
  | a :: rest, last => .alt a (Rx.choice rest last)

/-- The pattern a frame stands for once it is closed. -/
def RxFrame.toRx (f : RxFrame) : Rx :=
  Rx.choice f.alts (Rx.concat f.atoms.reverse)

/-- The metacharacters whose constructs are outside the modelled fragment. -/
def unmodelledMeta : List Char :=
  ['\\', '^', '$', '[', '?', '+', '{']

/-- Compilation of a pattern, left to right, with `top` the innermost open frame
and `stack` the enclosing ones. -/
def rxParse : List Char → RxFrame → List RxFrame → RxParse
  | [], top, [] => .ok top.toRx
  | [], _, _ :: _ => .invalid "missing closing parenthesis"
  | c :: cs, top, stack =>
    if c == '(' then rxParse cs {} (top :: stack)
    else if c == ')' then
      match stack with
      | [] => .invalid "unmatched closing parenthesis"
      | parent :: rest =>
        rxParse cs { parent with atoms := top.toRx :: parent.atoms, quantified := false } rest
    else if c == '|' then
      rxParse cs { alts := top.alts ++ [Rx.concat top.atoms.reverse] } stack
    else if c == '*' then
      match top.atoms with
      | [] =>
        if top.alts.isEmpty && !stack.isEmpty then .unmodelled
        else .invalid "quantifier does not follow a repeatable item"
      | a :: rest =>
        if top.quantified then .unmodelled
        else rxParse cs { top with atoms := .star a :: rest, quantified := true } stack
    else if c == '.' then
      rxParse cs { top with atoms := .dot :: top.atoms, quantified := false } stack
    else if unmodelledMeta.contains c then .unmodelled
    else rxParse cs { top with atoms := .lit c :: top.atoms, quantified := false } stack

/-- Compilation of the pattern string of a `$regex` filter. -/
def compileRegex (pattern : String) : RxParse :=
  rxParse pattern.data {} []

/-- The metacharacters of the pattern language. -/
def regexMeta : List Char :=
  ['(', ')', '|', '*', '.', '\\', '^', '$', '[', '?', '+', '{']

/-- The words a pattern matches as a whole: the usual denotation of a regular
expression, against which the matcher `Rx.test` is checked. -/
def Rx.Matches (ci : Bool) : Rx → List Char → Prop
  | .never, _ => False
  | .eps, w => w = []
  | .lit c, w => ∃ d, w = [d] ∧ litMatches ci c d = true
  | .dot, w => ∃ d, w = [d] ∧ d ≠ '\n'
  | .seq a b, w => ∃ u v, w = u ++ v ∧ a.Matches ci u ∧ b.Matches ci v
  | .alt a b, w => a.Matches ci w ∨ b.Matches ci w
  | .star a, w => ∃ ws : List (List Char), w = ws.flatten ∧ ∀ u ∈ ws, a.Matches ci u

/-! ## Movie service: reads -/

/-- The query filters the movie service builds: `{}` and
`{ $or: [{ title: { $regex, $options } }, { description: { $regex, $options } }] }`. -/
inductive Filter where
  | all
  | titleOrDescription (regex options : String)
  deriving DecidableEq, Repr

/-- The order of the sort `{ createdAt: -1 }`: `a` may precede `b` when `a` was
created no earlier than `b`. -/
def newestFirst (a b : Movie) : Prop :=
  b.createdAt ≤ a.createdAt

instance : DecidableRel newestFirst :=
  fun a b => inferInstanceAs (Decidable (b.createdAt ≤ a.createdAt))

/-- The sort `{ createdAt: -1 }`: newest first. -/
def sortByCreatedAtDesc (ms : List Movie) : List Movie :=
  ms.insertionSort newestFirst

/-- The query `MovieModel.find(filter).sort({ createdAt: -1 }).exec()`. The outer
`none` marks a pattern outside the modelled regular-expression fragment; an inner
error is a rejection with its message. -/
def MovieModel.find (st : Store) (filter : Filter) : Option (Except String (List Movie)) :=
  match st.fault with
  | some msg => some (.error msg)
  | none =>
    match filter with
    | .all => some (.ok (sortByCreatedAtDesc st.docs))
    | .titleOrDescription regex options =>
      match compileRegex regex with
      | .unmodelled => none
      | .invalid msg => some (.error ("Regular expression is invalid: " ++ msg))
      | .ok r =>
        let ci := options.data.contains 'i'
        some (.ok (sortByCreatedAtDesc
          (st.docs.filter (fun m => r.test ci m.title.data || r.test ci m.description.data))))

/-- The handler `movieService.searchMovies`, as the value passed to its callback. -/
def movieService.searchMovies (st : Store) (query : String) :
    Option (Except ServiceError (List Movie)) :=
  let filter := if query != "" then Filter.titleOrDescription query "i" else Filter.all
  match MovieModel.find st filter with
  | none => none
  | some (.ok movies) => some (.ok movies)
  | some (.error message) => some (.error { code := grpc.status.INTERNAL, message := message })

/-- Whether a character is a hexadecimal digit. -/
def isHexDigit (c : Char) : Bool :=
  ('0' ≤ c && c ≤ '9') || ('a' ≤ c && c ≤ 'f') || ('A' ≤ c && c ≤ 'F')

/-- The cast of an id string to the store's native identifier: a string of 24
hexadecimal digits denotes an identifier, given here in lower case; any other
string is not an identifier. (The raw 12-byte string form that some driver
versions also accept is not covered.) -/
def castObjectId (id : String) : Option String :=
  if id.data.length == 24 && id.data.all isHexDigit then some (asciiLower id) else none

/-- The query `MovieModel.findById(id).exec()`: the id is cast first and a failed
cast rejects with a cast error; otherwise the document with that id, if any. -/
def MovieModel.findById (st : Store) (id : String) : Except String (Option Movie) :=
  match castObjectId id with
  | none =>
    .error ("Cast to ObjectId failed for value \"" ++ id ++
      "\" (type string) at path \"_id\" for model \"Movie\"")
  | some oid =>
    match st.fault with
    | some msg => .error msg
    | none => .ok (st.docs.find? (fun m => m.id == oid))

/-- The handler `movieService.getMovie`, as the value passed to its callback. -/
def movieService.getMovie (st : Store) (movie_id : String) : Except ServiceError Movie :=
  match MovieModel.findById st movie_id with
  | .ok (some movie) => .ok movie
  | .ok none => .error { code := grpc.status.NOT_FOUND, message := "Movie not found" }
  | .error message => .error { code := grpc.status.INTERNAL, message := message }

/-! ## Gateway: REST reads -/

/-- The handler `app.get('/movies')`; `q` is `req.query.q`, absent or a string.
The RPC is called with `{ query: req.query.q || "" }`; the array `response.movies`
is truthy, so `response.movies || []` is that array. -/
def getMovies (searchMoviesRpc : String → Except RpcError (List Movie)) (q : Option String) :
    GwRun :=
  let query := optOrEmpty q
  match searchMoviesRpc query with
  | .error err =>
    { effects := [.searchMovies query],
      response := { status := 500, body := .error (strOr err.details "Internal server error") } }
  | .ok movies =>
    { effects := [.searchMovies query],
      response := { status := 200, body := .movies movies } }

/-- The handler `app.get('/movies/:id')`. -/
def getMovieById (getMovieRpc : String → Except RpcError Movie) (id : String) : GwRun :=
  match getMovieRpc id with
  | .error err =>
    if err.code == grpc.status.NOT_FOUND then
      { effects := [.getMovie id],
        response := { status := 404, body := .error (strOr err.details "Movie not found") } }
    else
      { effects := [.getMovie id],
        response := { status := 500, body := .error (strOr err.details "Internal server error") } }
  | .ok movie =>
    { effects := [.getMovie id],
      response := { status := 200, body := .movie movie } }

/-! ## Gateway: GraphQL resolvers -/

/-- One run of a resolver: the RPC calls it makes and how its promise settles,
resolved with a value or rejected with the RPC error. -/
structure GqlRun (α : Type) where
  effects : List GwEffect
  result : Except RpcError α

/-- The resolver `Query.movies`; `query` is the optional argument of
`movies(query: String)`. The RPC is called with `{ query: query || "" }`. -/
def resolvers.Query.movies (searchMoviesRpc : String → Except RpcError (List Movie))
    (query : Option String) : GqlRun (List Movie) :=
  let sent := optOrEmpty query
  { effects := [.searchMovies sent], result := searchMoviesRpc sent }

/-- The resolver `Mutation.createMovie`. The schema declares both arguments as
`String!`, so the resolver only runs on two strings. -/
def resolvers.Mutation.createMovie (createMovieRpc : CreateMovieCall → Except RpcError Movie)
    (title description : String) : GqlRun Movie :=
  let call : CreateMovieCall := { title := .str title, description := .str description }
  { effects := [.createMovie call], result := createMovieRpc call }

/-! ## TV-show service -/

/-- A TV show of the fixed dataset. -/
structure TVShow where
  id : String
  title : String
  description : String
  deriving DecidableEq, Repr

/-- The constant `tvShowsDB`. -/
def tvShowsDB : List TVShow :=
  [ { id := "1", title := "Breaking Bad",
      description := "A chemistry teacher turned drug kingpin." },
    { id := "2", title := "Game of Thrones",
      description := "Noble families vie for control of Westeros." } ]

/-- The method `Array.prototype.filter` for a test that may be undefined in the
model: the elements passing the test, in order, when the test is defined on
every element. -/
def filterDefined {α : Type} (p : α → Option Bool) : List α → Option (List α)
  | [] => some []
  | a :: rest =>
    match p a, filterDefined p rest with
    | some keep, some found => some (if keep then a :: found else found)
    | _, _ => none

/-- The test `s.title.toLowerCase().includes(query.toLowerCase())`. -/
def titleIncludes (query : String) (s : TVShow) : Option Bool :=
  match toLowerCase s.title, toLowerCase query with
  | some title, some q => some (includes title q)
  | _, _ => none

/-- The handler `tvShowService.searchTvshows`, as the `tv_shows` it passes to its
callback (it never calls back with an error); `none` when the query is outside
the strings on which `toLowerCase` is modelled. -/
def tvShowService.searchTvshows (query : String) : Option (List TVShow) :=
  if query != "" then filterDefined (titleIncludes query) tvShowsDB
  else some tvShowsDB

/-- The resolver `Query.tvShows`: the query string it sends,
`{ query: query || "" }`, and the shows the service returns for it. -/
def resolvers.Query.tvShows (query : Option String) : Option (List TVShow) :=
  tvShowService.searchTvshows (optOrEmpty query)

/-! ## Sample data used in the evaluations below -/

/-- A store holding "Dune" (older) and "Alien" (newer). -/
def sampleStore : Store :=
  { docs :=
      [ { id := "64b7f0c2a1b2c3d4e5f60001", title := "Dune",
          description := "Desert planet", createdAt := 100, updatedAt := 100 },
        { id := "64b7f0c2a1b2c3d4e5f60002", title := "Alien",
          description := "Space horror", createdAt := 200, updatedAt := 200 } ] }

/-- The identifier and clock value assigned to the next write in the samples. -/
def sampleEnv : SaveEnv :=
  { oid := "64b7f0c2a1b2c3d4e5f60003", now := 300 }

/-- The movie the sample write produces. -/
def sampleCreated : Movie :=
  { id := "64b7f0c2a1b2c3d4e5f60003", title := "Heat", description := "Crime saga",
    createdAt := 300, updatedAt := 300 }

/-- The request that produces `sampleCreated`. -/
def sampleRequest : CreateMovieRequest :=
  { title := "Heat", description := "Crime saga" }

/-- The sample store after the sample write. -/
def sampleStoreAfter : Store :=
  { docs := sampleStore.docs ++ [sampleCreated] }

/-- An RPC peer that answers every `createMovie` call with the given movie. -/
def rpcReturns (m : Movie) : CreateMovieCall → Except RpcError Movie :=
  fun _ => .ok m

/-- An RPC peer on which every `createMovie` call fails with the given error. -/
def rpcFails (e : RpcError) : CreateMovieCall → Except RpcError Movie :=
  fun _ => .error e

/-- An RPC peer that answers every `searchMovies` call with the given movies. -/
def rpcSearchReturns (ms : List Movie) : String → Except RpcError (List Movie) :=
  fun _ => .ok ms

/-- The movie client's `getMovie` when the peer is the movie service on the given
store. -/
def getMovieOverRpc (st : Store) : String → Except RpcError Movie :=
  fun movie_id => overRpc (movieService.getMovie st movie_id)

/-- A movie store holding the first TV show of the dataset as a movie. -/
def breakingBadStore : Store :=
  { docs :=
      [ { id := "64b7f0c2a1b2c3d4e5f60009", title := "Breaking Bad",
          description := "A chemistry teacher turned drug kingpin.",
          createdAt := 100, updatedAt := 100 } ] }

/-- A store whose writes are refused. -/
def brokenStore : Store :=
  { docs := [], fault := some "write refused" }

/-! ## Properties: create path -/

/-- A falsy `title` or `description` makes `postMovies` answer 400 without any
effect. -/
theorem postMovies_of_falsy (rpc : CreateMovieCall → Except RpcError Movie) (busUp : Bool)
    (body : ReqBody) (h : body.title.truthy = false ∨ body.description.truthy = false) :
    postMovies rpc busUp body =
      { effects := [],
        response := { status := 400, body := .error "Title and description are required" } } := by
  unfold postMovies
  rcases h with h | h <;> simp [h]

/-- With both fields truthy, `postMovies` makes the RPC call, then one send, and
answers from the RPC outcome. -/
theorem postMovies_of_truthy (rpc : CreateMovieCall → Except RpcError Movie) (busUp : Bool)
    (body : ReqBody) (ht : body.title.truthy = true) (hd : body.description.truthy = true) :
    postMovies rpc busUp body =
      match rpc { title := body.title, description := body.description } with
      | .error err =>
        { effects :=
            [.createMovie { title := body.title, description := body.description },
             .publish
               { topic := MOVIE_TOPIC,
                 payload :=
                   [("type", .text "GATEWAY_MOVIE_CREATION_FAILED"), ("error", .text err.details),
                    ("requestData", .fields body.title body.description)],
                 delivered := busUp }],
          response :=
            { status := 500, body := .error (strOr err.details "Failed to create movie") } }
      | .ok movie =>
        { effects :=
            [.createMovie { title := body.title, description := body.description },
             .publish
               { topic := MOVIE_TOPIC,
                 payload :=
                   [("type", .text "GATEWAY_MOVIE_CREATION_REQUEST_PROCESSED"),
                    ("data", .item movie)],
                 delivered := busUp }],
          response := { status := 201, body := .movie movie } } := by
  unfold postMovies
  simp only [ht, hd, Bool.not_true, Bool.or_self, Bool.false_eq_true, if_false]
  cases rpc { title := body.title, description := body.description } <;>
    cases busUp <;> rfl

/-- A non-empty string is truthy. -/
theorem truthy_str_of_ne_empty (s : String) (h : s ≠ "") : (JsVal.str s).truthy = true := by
  simp [JsVal.truthy, h]

/-- C1: a `POST /movies` request whose body lacks `title` or lacks `description`
(the empty body included) is answered with status 400, and the handler performs no
effect: no RPC call is made and no event publication is attempted. -/
theorem postMovies_missing_field_rejected (rpc : CreateMovieCall → Except RpcError Movie)
    (busUp : Bool) (body : ReqBody)
    (h : body.title = JsVal.undefined ∨ body.description = JsVal.undefined) :
    (postMovies rpc busUp body).response.status = 400 ∧
      (postMovies rpc busUp body).effects = [] ∧
      (postMovies rpc busUp body).rpcCalls = [] ∧
      (postMovies rpc busUp body).publications = [] := by
  have hf : body.title.truthy = false ∨ body.description.truthy = false := by
    rcases h with h | h
    · exact Or.inl (by rw [h]; rfl)
    · exact Or.inr (by rw [h]; rfl)
  rw [postMovies_of_falsy rpc busUp body hf]
  exact ⟨rfl, rfl, rfl, rfl⟩

/-- C1 at the empty body `{}`, with a peer that would have created the movie. -/
theorem postMovies_missing_field_rejected_witness :
    (({} : ReqBody).title = JsVal.undefined ∨ ({} : ReqBody).description = JsVal.undefined) ∧
      ((postMovies (rpcReturns sampleCreated) true {}).response.status = 400 ∧
        (postMovies (rpcReturns sampleCreated) true {}).effects = [] ∧
        (postMovies (rpcReturns sampleCreated) true {}).rpcCalls = [] ∧
        (postMovies (rpcReturns sampleCreated) true {}).publications = []) :=
  ⟨Or.inl rfl, postMovies_missing_field_rejected (rpcReturns sampleCreated) true {} (Or.inl rfl)⟩

/-- When the write succeeds, `createMovie` attempts one `MOVIE_CREATED` send and
calls back once with the saved movie. -/
theorem createMovie_of_saved (st st' : Store) (env : SaveEnv) (busUp : Bool)
    (req : CreateMovieRequest) (m : Movie)
    (hsave : MovieModel.save st env req.title req.description = .ok (m, st')) :
    movieService.createMovie st env busUp req =
      { bus :=
          [{ topic := MOVIE_TOPIC,
             payload := [("type", .text "MOVIE_CREATED"), ("data", .item m)],
             delivered := busUp }],
        callback := [.ok m],
        store := st' } := by
  unfold movieService.createMovie
  rw [hsave]
  cases busUp <;> rfl

/-- When the write fails, `createMovie` attempts one `MOVIE_CREATION_FAILED` send
and calls back once with status `INTERNAL`. -/
theorem createMovie_of_save_failed (st : Store) (env : SaveEnv) (busUp : Bool)
    (req : CreateMovieRequest) (msg : String)
    (hsave : MovieModel.save st env req.title req.description = .error msg) :
    movieService.createMovie st env busUp req =
      { bus :=
          [{ topic := MOVIE_TOPIC,
             payload :=
               [("type", .text "MOVIE_CREATION_FAILED"), ("error", .text msg),
                ("request", .rpcRequest req.title req.description)],
             delivered := busUp }],
        callback := [.error { code := grpc.status.INTERNAL, message := msg }],
        store := st } := by
  unfold movieService.createMovie
  rw [hsave]
  cases busUp <;> rfl

/-- C2: when the store write of a create request succeeds, the caller is told so
whatever happens on the bus: `createMovie` calls back exactly once, with
`(null, persisted item)`, for a bus that is up or down; and the gateway, receiving
that answer over RPC for the same title and description, responds 201 with the
item for a gateway producer that is up or down. -/
theorem create_succeeds_whatever_the_bus (st st' : Store) (env : SaveEnv)
    (req : CreateMovieRequest) (m : Movie) (busSvc busGw : Bool)
    (rpc : CreateMovieCall → Except RpcError Movie)
    (hsave : MovieModel.save st env req.title req.description = .ok (m, st'))
    (ht : req.title ≠ "") (hd : req.description ≠ "")
    (hrpc : [rpc { title := .str req.title, description := .str req.description }] =
      (movieService.createMovie st env busSvc req).callback.map overRpc) :
    (movieService.createMovie st env busSvc req).callback = [.ok m] ∧
      (postMovies rpc busGw
          { title := .str req.title, description := .str req.description }).response =
        { status := 201, body := .movie m } := by
  rw [createMovie_of_saved st st' env busSvc req m hsave] at hrpc ⊢
  refine ⟨rfl, ?_⟩
  have hcall : rpc { title := .str req.title, description := .str req.description } = .ok m := by
    simpa [overRpc] using hrpc
  rw [postMovies_of_truthy rpc busGw _ (truthy_str_of_ne_empty _ ht)
    (truthy_str_of_ne_empty _ hd)]
  simp only [hcall]

/-- C2 on the sample store, with the service's bus and the gateway's bus both
down. -/
theorem create_succeeds_whatever_the_bus_witness :
    MovieModel.save sampleStore sampleEnv sampleRequest.title sampleRequest.description =
        .ok (sampleCreated, sampleStoreAfter) ∧
      sampleRequest.title ≠ "" ∧ sampleRequest.description ≠ "" ∧
      [rpcReturns sampleCreated
          { title := .str sampleRequest.title, description := .str sampleRequest.description }] =
        (movieService.createMovie sampleStore sampleEnv false sampleRequest).callback.map
          overRpc ∧
      ((movieService.createMovie sampleStore sampleEnv false sampleRequest).callback =
          [.ok sampleCreated] ∧
        (postMovies (rpcReturns sampleCreated) false
            { title := .str sampleRequest.title,
              description := .str sampleRequest.description }).response =
          { status := 201, body := .movie sampleCreated }) :=
  ⟨by decide, by decide, by decide, by decide,
    create_succeeds_whatever_the_bus sampleStore sampleStoreAfter sampleEnv sampleRequest
      sampleCreated false false (rpcReturns sampleCreated) (by decide) (by decide) (by decide)
      (by decide)⟩

/-- C3, as stated, fails: on a store that refuses the write and a reachable bus,
`createMovie` fails with `INTERNAL` and yet one event, `MOVIE_CREATION_FAILED`, is
delivered to the bus. -/
theorem createMovie_failed_write_still_publishes :
    MovieModel.save brokenStore sampleEnv sampleRequest.title sampleRequest.description =
        .error "write refused" ∧
      (movieService.createMovie brokenStore sampleEnv true sampleRequest).callback =
        [.error { code := grpc.status.INTERNAL, message := "write refused" }] ∧
      (movieService.createMovie brokenStore sampleEnv true sampleRequest).bus =
        [{ topic := "movies_topic",
           payload :=
             [("type", .text "MOVIE_CREATION_FAILED"), ("error", .text "write refused"),
              ("request", .rpcRequest "Heat" "Crime saga")],
           delivered := true }] ∧
      ¬ (movieService.createMovie brokenStore sampleEnv true sampleRequest).bus = [] := by
  decide

/-- C3, amended: when the store write of a create request fails, `createMovie`
calls back exactly once, with status `INTERNAL` and the store's message, leaves
the store as it was, publishes no `MOVIE_CREATED` event, and makes exactly one
send, of a `MOVIE_CREATION_FAILED` event on the movie topic, delivered exactly
when the bus is reachable. -/
theorem createMovie_failed_write (st : Store) (env : SaveEnv) (busUp : Bool)
    (req : CreateMovieRequest) (msg : String)
    (hsave : MovieModel.save st env req.title req.description = .error msg) :
    (movieService.createMovie st env busUp req).callback =
        [.error { code := grpc.status.INTERNAL, message := msg }] ∧
      (movieService.createMovie st env busUp req).store = st ∧
      (∀ a ∈ (movieService.createMovie st env busUp req).bus,
        a.payload.get "type" ≠ some (.text "MOVIE_CREATED")) ∧
      ∃ a, (movieService.createMovie st env busUp req).bus = [a] ∧
        a.topic = MOVIE_TOPIC ∧
        a.payload.get "type" = some (.text "MOVIE_CREATION_FAILED") ∧
        a.delivered = busUp := by
  rw [createMovie_of_save_failed st env busUp req msg hsave]
  refine ⟨rfl, rfl, ?_, _, rfl, rfl, ?_, rfl⟩
  · intro a ha
    rw [List.mem_singleton] at ha
    subst ha
    simp [Payload.get]
  · simp [Payload.get]

/-- C3 (amended) on a store that refuses the write, with the bus up. -/
theorem createMovie_failed_write_witness :
    MovieModel.save brokenStore sampleEnv sampleRequest.title sampleRequest.description =
        .error "write refused" ∧
      ((movieService.createMovie brokenStore sampleEnv true sampleRequest).callback =
          [.error { code := grpc.status.INTERNAL, message := "write refused" }] ∧
        (movieService.createMovie brokenStore sampleEnv true sampleRequest).store =
          brokenStore ∧
        (∀ a ∈ (movieService.createMovie brokenStore sampleEnv true sampleRequest).bus,
          a.payload.get "type" ≠ some (.text "MOVIE_CREATED")) ∧
        ∃ a, (movieService.createMovie brokenStore sampleEnv true sampleRequest).bus = [a] ∧
          a.topic = MOVIE_TOPIC ∧
          a.payload.get "type" = some (.text "MOVIE_CREATION_FAILED") ∧
          a.delivered = true) :=
  ⟨by decide,
    createMovie_failed_write brokenStore sampleEnv true sampleRequest "write refused"
      (by decide)⟩

/-- C8: for a `POST /movies` request with non-empty `title` and `description` the
gateway makes exactly one `createMovie` RPC call, with `{ title, description }`,
and then exactly one send on the shared movie topic. If the RPC succeeded the
event is `GATEWAY_MOVIE_CREATION_REQUEST_PROCESSED` with the created item as
`data` and the response is 201 with that item; if it failed the event is
`GATEWAY_MOVIE_CREATION_FAILED` with the RPC error message as `error` and
`{ title, description }` as `requestData`, and the response is 500 with an
`{ error }` body. -/
theorem postMovies_valid_request (rpc : CreateMovieCall → Except RpcError Movie)
    (busUp : Bool) (t d : String) (ht : t ≠ "") (hd : d ≠ "") :
    (postMovies rpc busUp { title := .str t, description := .str d }).rpcCalls =
        [.createMovie { title := .str t, description := .str d }] ∧
      (postMovies rpc busUp { title := .str t, description := .str d }).publications.length
        = 1 ∧
      (∀ movie, rpc { title := .str t, description := .str d } = .ok movie →
        (postMovies rpc busUp { title := .str t, description := .str d }).effects =
            [.createMovie { title := .str t, description := .str d },
             .publish
               { topic := MOVIE_TOPIC,
                 payload :=
                   [("type", .text "GATEWAY_MOVIE_CREATION_REQUEST_PROCESSED"),
                    ("data", .item movie)],
                 delivered := busUp }] ∧
          (postMovies rpc busUp { title := .str t, description := .str d }).response =
            { status := 201, body := .movie movie }) ∧
      (∀ err, rpc { title := .str t, description := .str d } = .error err →
        (postMovies rpc busUp { title := .str t, description := .str d }).effects =
            [.createMovie { title := .str t, description := .str d },
             .publish
               { topic := MOVIE_TOPIC,
                 payload :=
                   [("type", .text "GATEWAY_MOVIE_CREATION_FAILED"),
                    ("error", .text err.details),
                    ("requestData", .fields (.str t) (.str d))],
                 delivered := busUp }] ∧
          (postMovies rpc busUp { title := .str t, description := .str d }).response.status =
            500 ∧
          ∃ msg, (postMovies rpc busUp { title := .str t, description := .str d }).response.body =
            .error msg) := by
  rw [postMovies_of_truthy rpc busUp _ (truthy_str_of_ne_empty _ ht)
    (truthy_str_of_ne_empty _ hd)]
  cases hr : rpc { title := .str t, description := .str d } with
  | error e =>
    refine ⟨rfl, rfl, ?_, ?_⟩
    · intro movie hm
      cases hm
    · intro err he
      cases he
      exact ⟨rfl, rfl, _, rfl⟩
  | ok m =>
    refine ⟨rfl, rfl, ?_, ?_⟩
    · intro movie hm
      cases hm
      exact ⟨rfl, rfl⟩
    · intro err he
      cases he

/-- C8 on the sample request, the peer failing as `UNAVAILABLE` and the bus down. -/
theorem postMovies_valid_request_witness :
    "Heat" ≠ "" ∧ "Crime saga" ≠ "" ∧
      ((postMovies (rpcFails { code := grpc.status.UNAVAILABLE, details := "no connection" })
            false { title := .str "Heat", description := .str "Crime saga" }).rpcCalls =
          [.createMovie { title := .str "Heat", description := .str "Crime saga" }] ∧
        (postMovies (rpcFails { code := grpc.status.UNAVAILABLE, details := "no connection" })
            false { title := .str "Heat", description := .str "Crime saga" }).response =
          { status := 500, body := .error "no connection" }) :=
  ⟨by decide, by decide,
    (postMovies_valid_request
      (rpcFails { code := grpc.status.UNAVAILABLE, details := "no connection" }) false
      "Heat" "Crime saga" (by decide) (by decide)).1, by decide⟩

/-- C10 at a refused write with the bus up: the `MOVIE_CREATION_FAILED` event the
service sends carries the original request under the key `request`, which is not
a key of the envelope, and has nothing under `requestData`, where the claim says
the request is under `requestData`. The gateway's failure event for the same
request, sent on the same topic, does use `requestData` and stays within the
envelope. -/
theorem failure_event_outside_envelope :
    (movieService.createMovie brokenStore sampleEnv true sampleRequest).bus =
        [{ topic := "movies_topic",
           payload :=
             [("type", .text "MOVIE_CREATION_FAILED"), ("error", .text "write refused"),
              ("request", .rpcRequest "Heat" "Crime saga")],
           delivered := true }] ∧
      Payload.keys
          [("type", .text "MOVIE_CREATION_FAILED"), ("error", .text "write refused"),
           ("request", .rpcRequest "Heat" "Crime saga")] =
        ["type", "error", "request"] ∧
      ¬ ["type", "error", "request"] ⊆ envelopeKeys ∧
      Payload.get
          [("type", .text "MOVIE_CREATION_FAILED"), ("error", .text "write refused"),
           ("request", .rpcRequest "Heat" "Crime saga")] "requestData" = none ∧
      (postMovies (rpcFails { code := grpc.status.INTERNAL, details := "write refused" }) true
          { title := .str "Heat", description := .str "Crime saga" }).publications =
        [{ topic := "movies_topic",
           payload :=
             [("type", .text "GATEWAY_MOVIE_CREATION_FAILED"), ("error", .text "write refused"),
              ("requestData", .fields (.str "Heat") (.str "Crime saga"))],
           delivered := true }] ∧
      Payload.keys
          [("type", .text "GATEWAY_MOVIE_CREATION_FAILED"), ("error", .text "write refused"),
           ("requestData", .fields (.str "Heat") (.str "Crime saga"))] ⊆ envelopeKeys := by
  refine ⟨by decide, by decide, ?_, by decide, by decide, ?_⟩
  · intro h
    have := h (List.mem_cons_of_mem _ (List.mem_cons_of_mem _ (List.mem_singleton.2 rfl)))
    revert this
    decide
  · intro k hk
    simp [Payload.keys] at hk
    simp [envelopeKeys]
    tauto

/-- The shape of the events `createMovie` sends: every payload has its keys among
`type`, `data`, `error` and `request`, and its `type` is `MOVIE_CREATED` or
`MOVIE_CREATION_FAILED`. A `MOVIE_CREATED` event is sent only after a successful
write and carries the persisted item under `data`; a `MOVIE_CREATION_FAILED` event
is sent only when the write failed and carries the failure message under `error`
and the original request under `request`. -/
theorem service_event_shape (st : Store) (env : SaveEnv) (busUp : Bool)
    (req : CreateMovieRequest) (a : BusAttempt)
    (ha : a ∈ (movieService.createMovie st env busUp req).bus) :
    a.payload.keys ⊆ ["type", "data", "error", "request"] ∧
      (a.payload.get "type" = some (.text "MOVIE_CREATED") ∨
        a.payload.get "type" = some (.text "MOVIE_CREATION_FAILED")) ∧
      (a.payload.get "type" = some (.text "MOVIE_CREATED") →
        ∃ m st', MovieModel.save st env req.title req.description = .ok (m, st') ∧
          a.payload.get "data" = some (.item m)) ∧
      (a.payload.get "type" = some (.text "MOVIE_CREATION_FAILED") →
        ∃ msg, MovieModel.save st env req.title req.description = .error msg ∧
          a.payload.get "error" = some (.text msg) ∧
          a.payload.get "request" = some (.rpcRequest req.title req.description)) := by
  cases hs : MovieModel.save st env req.title req.description with
  | error msg =>
    rw [createMovie_of_save_failed st env busUp req msg hs, List.mem_singleton] at ha
    subst ha
    refine ⟨?_, Or.inr (by simp [Payload.get]), ?_, ?_⟩
    · intro k hk
      simp [Payload.keys] at hk ⊢
      tauto
    · intro h
      simp [Payload.get] at h
    · intro _
      exact ⟨msg, rfl, by simp [Payload.get], by simp [Payload.get]⟩
  | ok p =>
    obtain ⟨m, st'⟩ := p
    rw [createMovie_of_saved st st' env busUp req m hs, List.mem_singleton] at ha
    subst ha
    refine ⟨?_, Or.inl (by simp [Payload.get]), ?_, ?_⟩
    · intro k hk
      simp [Payload.keys] at hk ⊢
      tauto
    · intro _
      exact ⟨m, st', rfl, by simp [Payload.get]⟩
    · intro h
      simp [Payload.get] at h

/-- The shape of the event sent when the sample write is refused. -/
theorem service_event_shape_witness :
    ({ topic := "movies_topic",
       payload :=
         [("type", .text "MOVIE_CREATION_FAILED"), ("error", .text "write refused"),
          ("request", .rpcRequest "Heat" "Crime saga")],
       delivered := true } : BusAttempt) ∈
        (movieService.createMovie brokenStore sampleEnv true sampleRequest).bus ∧
      Payload.keys
          [("type", .text "MOVIE_CREATION_FAILED"), ("error", .text "write refused"),
           ("request", .rpcRequest "Heat" "Crime saga")] ⊆
        ["type", "data", "error", "request"] :=
  ⟨by decide,
    (service_event_shape brokenStore sampleEnv true sampleRequest
      { topic := "movies_topic",
        payload :=
          [("type", .text "MOVIE_CREATION_FAILED"), ("error", .text "write refused"),
           ("request", .rpcRequest "Heat" "Crime saga")],
        delivered := true } (by decide)).1⟩

/-! ## Properties: search -/

/-- The scan `occursIn` decides contiguous occurrence. -/
theorem occursIn_iff (needle hay : List Char) : occursIn needle hay = true ↔ needle <:+: hay := by
  induction hay with
  | nil => simp [occursIn]
  | cons c cs ih =>
    rw [occursIn, Bool.or_eq_true, ih, List.infix_cons_iff, List.isPrefixOf_iff_prefix]

/-- On lower-cased strings `includes` is case-insensitive containment. -/
theorem includes_asciiLower_iff (text q : String) :
    includes (asciiLower text) (asciiLower q) = true ↔ containsCI text q := by
  unfold includes asciiLower containsCI
  exact occursIn_iff _ _

/-- Where `toLowerCase` is defined it is `asciiLower`. -/
theorem toLowerCase_eq_some (s t : String) (h : toLowerCase s = some t) :
    isAscii s = true ∧ t = asciiLower s := by
  unfold toLowerCase at h
  by_cases ha : isAscii s = true
  · rw [if_pos ha] at h
    exact ⟨ha, (Option.some.inj h).symm⟩
  · rw [if_neg ha] at h
    cases h

/-- Where `filterDefined` is defined, the test is defined on every element. -/
theorem filterDefined_defined_on {α : Type} (p : α → Option Bool) (l found : List α)
    (h : filterDefined p l = some found) (a : α) (ha : a ∈ l) : ∃ b, p a = some b := by
  induction l generalizing found with
  | nil => cases ha
  | cons x rest ih =>
    unfold filterDefined at h
    cases hx : p x with
    | none => simp [hx] at h
    | some keep =>
      cases hr : filterDefined p rest with
      | none => simp [hx, hr] at h
      | some f =>
        rcases List.mem_cons.1 ha with rfl | ha
        · exact ⟨keep, hx⟩
        · exact ih f hr ha

/-- The title test, where defined, is case-insensitive containment in the title. -/
theorem titleIncludes_eq_some (q : String) (s : TVShow) (b : Bool)
    (h : titleIncludes q s = some b) : (b = true ↔ containsCI s.title q) := by
  unfold titleIncludes at h
  cases ht : toLowerCase s.title with
  | none => simp [ht] at h
  | some t =>
    cases hq : toLowerCase q with
    | none => simp [ht, hq] at h
    | some l =>
      simp only [ht, hq, Option.some.injEq] at h
      rw [← h, (toLowerCase_eq_some _ _ ht).2, (toLowerCase_eq_some _ _ hq).2]
      exact includes_asciiLower_iff _ _

/-- The filter `filterDefined`, where defined, keeps exactly the elements that
pass the test, in order. -/
theorem filterDefined_eq_some {α : Type} (p : α → Option Bool) (l found : List α)
    (h : filterDefined p l = some found) :
    found.Sublist l ∧ ∀ a, a ∈ found ↔ a ∈ l ∧ p a = some true := by
  induction l generalizing found with
  | nil =>
    simp only [filterDefined, Option.some.injEq] at h
    subst h
    simp
  | cons x rest ih =>
    unfold filterDefined at h
    cases hx : p x with
    | none => simp [hx] at h
    | some keep =>
      cases hr : filterDefined p rest with
      | none => simp [hx, hr] at h
      | some f =>
        simp only [hx, hr, Option.some.injEq] at h
        obtain ⟨hsub, hmem⟩ := ih f hr
        subst h
        cases keep with
        | true =>
          refine ⟨by simpa using hsub.cons₂ x, ?_⟩
          intro a
          simp only [if_true, List.mem_cons, hmem]
          constructor
          · rintro (rfl | ⟨ha, hp⟩)
            · exact ⟨Or.inl rfl, hx⟩
            · exact ⟨Or.inr ha, hp⟩
          · rintro ⟨rfl | ha, hp⟩
            · exact Or.inl rfl
            · exact Or.inr ⟨ha, hp⟩
        | false =>
          refine ⟨by simpa using hsub.cons x, ?_⟩
          intro a
          simp only [Bool.false_eq_true, if_false, List.mem_cons, hmem]
          constructor
          · rintro ⟨ha, hp⟩
            exact ⟨Or.inr ha, hp⟩
          · rintro ⟨rfl | ha, hp⟩
            · rw [hx] at hp
              cases hp
            · exact ⟨ha, hp⟩

/-- The relation `newestFirst` is total. -/
theorem newestFirst_total (a b : Movie) : newestFirst a b ∨ newestFirst b a :=
  Nat.le_total b.createdAt a.createdAt

/-- The relation `newestFirst` is transitive. -/
theorem newestFirst_trans (a b c : Movie) (hab : newestFirst a b) (hbc : newestFirst b c) :
    newestFirst a c :=
  Nat.le_trans hbc hab

/-- The sort returns a rearrangement of its input that is ordered newest first. -/
theorem sortByCreatedAtDesc_spec (ms : List Movie) :
    (sortByCreatedAtDesc ms).Perm ms ∧ (sortByCreatedAtDesc ms).Sorted newestFirst := by
  haveI : IsTotal Movie newestFirst := ⟨newestFirst_total⟩
  haveI : IsTrans Movie newestFirst := ⟨newestFirst_trans⟩
  exact ⟨List.perm_insertionSort _ ms, List.sorted_insertionSort _ ms⟩

/-- C7: when the client query is absent or empty, the REST handler and the GraphQL
resolver both send the query `""` in their single `searchMovies` RPC call and hand
the movies the RPC returns to the client unchanged; and on a reachable store
`searchMovies` with the query `""` succeeds with a list that is a rearrangement of
the whole store, ordered newest first. -/
theorem search_empty_query_returns_all (st : Store) (q : Option String)
    (rpc : String → Except RpcError (List Movie))
    (hst : st.fault = none) (hq : q = none ∨ q = some "") :
    (getMovies rpc q).effects = [.searchMovies ""] ∧
      (resolvers.Query.movies rpc q).effects = [.searchMovies ""] ∧
      (∀ ms, rpc "" = .ok ms →
        (getMovies rpc q).response = { status := 200, body := .movies ms } ∧
          (resolvers.Query.movies rpc q).result = .ok ms) ∧
      ∃ ms, movieService.searchMovies st "" = some (.ok ms) ∧
        ms.Perm st.docs ∧ ms.Sorted newestFirst := by
  have hsent : optOrEmpty q = "" := by
    rcases hq with h | h <;> subst h <;> rfl
  refine ⟨?_, ?_, ?_, sortByCreatedAtDesc st.docs, ?_, sortByCreatedAtDesc_spec st.docs⟩
  · unfold getMovies
    simp only [hsent]
    cases rpc "" <;> rfl
  · unfold resolvers.Query.movies
    simp only [hsent]
  · intro ms hms
    unfold getMovies resolvers.Query.movies
    simp only [hsent, hms, and_self]
  · simp [movieService.searchMovies, MovieModel.find, hst]

/-- C7 on the sample store with an absent query: the newer "Alien" comes first. -/
theorem search_empty_query_returns_all_witness :
    sampleStore.fault = none ∧ ((none : Option String) = none ∨ (none : Option String) = some "") ∧
      movieService.searchMovies sampleStore "" = some (.ok sampleStore.docs.reverse) ∧
      (getMovies (rpcSearchReturns sampleStore.docs.reverse) none).effects = [.searchMovies ""] :=
  ⟨rfl, Or.inl rfl, by decide,
    (search_empty_query_returns_all sampleStore none
      (rpcSearchReturns sampleStore.docs.reverse) rfl (Or.inl rfl)).1⟩

/-- A pattern is nullable exactly when it matches the empty word. -/
theorem Rx.nullable_iff (ci : Bool) (r : Rx) : r.nullable = true ↔ r.Matches ci [] := by
  induction r with
  | never => simp [Rx.nullable, Rx.Matches]
  | eps => simp [Rx.nullable, Rx.Matches]
  | lit c => simp [Rx.nullable, Rx.Matches]
  | dot => simp [Rx.nullable, Rx.Matches]
  | seq a b iha ihb =>
    simp only [Rx.nullable, Rx.Matches, Bool.and_eq_true, iha, ihb]
    constructor
    · rintro ⟨ha, hb⟩
      exact ⟨[], [], rfl, ha, hb⟩
    · rintro ⟨u, v, huv, ha, hb⟩
      obtain ⟨rfl, rfl⟩ := List.append_eq_nil.1 huv.symm
      exact ⟨ha, hb⟩
  | alt a b iha ihb => simp only [Rx.nullable, Rx.Matches, Bool.or_eq_true, iha, ihb]
  | star a _ =>
    simp only [Rx.nullable, Rx.Matches, true_iff]
    exact ⟨[], rfl, by simp⟩

/-- A word beginning with `d` is matched by `star a` exactly when it splits into a
word of `a` beginning with `d` followed by a word of `star a`. -/
theorem Rx.matches_star_cons (ci : Bool) (a : Rx) (d : Char) (w : List Char) :
    (Rx.star a).Matches ci (d :: w) ↔
      ∃ u v, w = u ++ v ∧ a.Matches ci (d :: u) ∧ (Rx.star a).Matches ci v := by
  simp only [Rx.Matches]
  constructor
  · rintro ⟨ws, hw, hall⟩
    induction ws with
    | nil => simp at hw
    | cons p ps ih =>
      cases p with
      | nil =>
        exact ih (by simpa using hw) (fun u hu => hall u (List.mem_cons_of_mem _ hu))
      | cons e u =>
        rw [List.flatten_cons, List.cons_append, List.cons.injEq] at hw
        obtain ⟨rfl, rfl⟩ := hw
        exact ⟨u, ps.flatten, rfl, hall _ (List.mem_cons_self _ _), ps, rfl,
          fun x hx => hall x (List.mem_cons_of_mem _ hx)⟩
  · rintro ⟨u, v, rfl, hu, ws, rfl, hall⟩
    refine ⟨(d :: u) :: ws, by simp, ?_⟩
    intro x hx
    rcases List.mem_cons.1 hx with rfl | hx
    · exact hu
    · exact hall x hx

/-- The derivative by `d` matches `w` exactly when the pattern matches `d :: w`. -/
theorem Rx.deriv_iff (ci : Bool) (r : Rx) (d : Char) (w : List Char) :
    (r.deriv ci d).Matches ci w ↔ r.Matches ci (d :: w) := by
  induction r generalizing w with
  | never => simp [Rx.deriv, Rx.Matches]
  | eps => simp [Rx.deriv, Rx.Matches]
  | lit c =>
    by_cases h : litMatches ci c d = true
    · simp only [Rx.deriv, Rx.Matches, h, if_true]
      constructor
      · intro hw
        exact ⟨d, by rw [hw], h⟩
      · rintro ⟨e, he, -⟩
        exact (List.cons.inj he).2
    · simp only [Rx.deriv, h, Rx.Matches, if_false, Bool.false_eq_true, false_iff]
      rintro ⟨e, he, hm⟩
      obtain ⟨rfl, -⟩ := List.cons.inj he
      exact h hm
  | dot =>
    by_cases h : d = '\n'
    · simp only [Rx.deriv, Rx.Matches, h, beq_self_eq_true, if_true, false_iff]
      rintro ⟨e, he, hne⟩
      exact hne (List.cons.inj he).1.symm
    · have hb : (d == '\n') = false := by simpa using h
      simp only [Rx.deriv, Rx.Matches, hb, Bool.false_eq_true, if_false]
      constructor
      · intro hw
        exact ⟨d, by rw [hw], h⟩
      · rintro ⟨e, he, -⟩
        exact (List.cons.inj he).2
  | seq a b iha ihb =>
    have key : (Rx.seq a b).Matches ci (d :: w) ↔
        (a.Matches ci [] ∧ b.Matches ci (d :: w)) ∨
          ∃ u v, w = u ++ v ∧ a.Matches ci (d :: u) ∧ b.Matches ci v := by
      simp only [Rx.Matches]
      constructor
      · rintro ⟨u, v, huv, ha, hb⟩
        cases u with
        | nil => exact Or.inl ⟨ha, by simpa using huv ▸ hb⟩
        | cons e u =>
          rw [List.cons_append, List.cons.injEq] at huv
          obtain ⟨rfl, rfl⟩ := huv
          exact Or.inr ⟨u, v, rfl, ha, hb⟩
      · rintro (⟨ha, hb⟩ | ⟨u, v, rfl, ha, hb⟩)
        · exact ⟨[], d :: w, rfl, ha, hb⟩
        · exact ⟨d :: u, v, rfl, ha, hb⟩
    rw [key]
    by_cases hn : a.nullable = true
    · have hn' := (Rx.nullable_iff ci a).1 hn
      simp only [Rx.deriv, hn, if_true, Rx.Matches, iha, ihb, hn', true_and]
      exact or_comm
    · have hn' : ¬ a.Matches ci [] := fun h => hn ((Rx.nullable_iff ci a).2 h)
      simp only [Rx.deriv, hn, if_false, Rx.Matches, iha, hn', false_and, false_or,
        Bool.false_eq_true]
  | alt a b iha ihb => simp only [Rx.deriv, Rx.Matches, iha, ihb]
  | star a iha =>
    rw [Rx.matches_star_cons]
    simp only [Rx.deriv, Rx.Matches, iha]

/-- The function `matchesPrefix` decides whether some prefix of the subject is
matched. -/
theorem Rx.matchesPrefix_iff (ci : Bool) (r : Rx) (s : List Char) :
    r.matchesPrefix ci s = true ↔ ∃ u, u <+: s ∧ r.Matches ci u := by
  induction s generalizing r with
  | nil =>
    simp only [Rx.matchesPrefix, Rx.nullable_iff ci, List.prefix_nil]
    exact ⟨fun h => ⟨[], rfl, h⟩, fun ⟨u, hu, h⟩ => hu ▸ h⟩
  | cons d ds ih =>
    simp only [Rx.matchesPrefix, Bool.or_eq_true, Rx.nullable_iff ci, ih, List.prefix_cons_iff]
    constructor
    · rintro (h | ⟨u, hu, h⟩)
      · exact ⟨[], Or.inl rfl, h⟩
      · exact ⟨d :: u, Or.inr ⟨u, rfl, hu⟩, (Rx.deriv_iff ci r d u).1 h⟩
    · rintro ⟨u, hu | ⟨t, rfl, ht⟩, h⟩
      · exact Or.inl (hu ▸ h)
      · exact Or.inr ⟨t, ht, (Rx.deriv_iff ci r d t).2 h⟩

/-- The function `test` decides whether some contiguous block of the subject is
matched. -/
theorem Rx.test_iff (ci : Bool) (r : Rx) (s : List Char) :
    r.test ci s = true ↔ ∃ u, u <:+: s ∧ r.Matches ci u := by
  induction s with
  | nil =>
    simp only [Rx.test, Rx.matchesPrefix_iff, List.prefix_nil, List.infix_nil]
  | cons d ds ih =>
    simp only [Rx.test, Bool.or_eq_true, Rx.matchesPrefix_iff, ih, List.infix_cons_iff]
    constructor
    · rintro (⟨u, hu, h⟩ | ⟨u, hu, h⟩)
      · exact ⟨u, Or.inl hu, h⟩
      · exact ⟨u, Or.inr hu, h⟩
    · rintro ⟨u, hu | hu, h⟩
      · exact Or.inl ⟨u, hu, h⟩
      · exact Or.inr ⟨u, hu, h⟩

/-- A sequence of literals matches exactly the words of the same length whose
characters match position by position. -/
theorem Rx.matches_literals (ci : Bool) (cs w : List Char) :
    (Rx.concat (cs.map Rx.lit)).Matches ci w ↔
      List.Forall₂ (fun c d => litMatches ci c d = true) cs w := by
  induction cs generalizing w with
  | nil => simp [Rx.concat, Rx.Matches]
  | cons c cs ih =>
    simp only [List.map_cons, Rx.concat, Rx.Matches, ih]
    constructor
    · rintro ⟨u, v, rfl, ⟨d, rfl, hd⟩, hv⟩
      exact List.Forall₂.cons hd hv
    · intro h
      cases h with
      | cons hd hv => exact ⟨_, _, rfl, ⟨_, rfl, hd⟩, hv⟩

/-- Case-insensitive position-wise matching is equality of the lower-cased words. -/
theorem forall₂_litMatches_iff (cs w : List Char) :
    List.Forall₂ (fun c d => litMatches true c d = true) cs w ↔
      cs.map Char.toLower = w.map Char.toLower := by
  induction cs generalizing w with
  | nil =>
    cases w with
    | nil => simp
    | cons d ds => simp
  | cons c cs ih =>
    cases w with
    | nil => simp
    | cons d ds =>
      rw [List.forall₂_cons, ih]
      simp [litMatches]

/-- A case-insensitive search for a sequence of literals is case-insensitive
containment of that sequence. -/
theorem Rx.test_literals (cs s : List Char) :
    (Rx.concat (cs.map Rx.lit)).test true s = true ↔
      cs.map Char.toLower <:+: s.map Char.toLower := by
  rw [Rx.test_iff]
  constructor
  · rintro ⟨u, hu, hm⟩
    rw [Rx.matches_literals, forall₂_litMatches_iff] at hm
    rw [hm]
    exact hu.map _
  · rintro ⟨pre, suf, h⟩
    obtain ⟨ab, c, rfl, hab, -⟩ := List.map_eq_append_iff.1 h.symm
    obtain ⟨a, b, rfl, -, hb⟩ := List.map_eq_append_iff.1 hab
    refine ⟨b, ⟨a, c, rfl⟩, ?_⟩
    rw [Rx.matches_literals, forall₂_litMatches_iff, hb]

/-- A pattern without metacharacters compiles to the sequence of its literals. -/
theorem rxParse_plain (cs : List Char) (top : RxFrame) (halts : top.alts = [])
    (hplain : ∀ c ∈ cs, c ∉ regexMeta) :
    rxParse cs top [] = .ok (Rx.concat (top.atoms.reverse ++ cs.map Rx.lit)) := by
  induction cs generalizing top with
  | nil => simp [rxParse, RxFrame.toRx, halts, Rx.choice]
  | cons c cs ih =>
    have hc : c ∉ regexMeta := hplain c (List.mem_cons_self _ _)
    simp only [regexMeta, List.mem_cons, List.mem_singleton, not_or, List.not_mem_nil,
      or_false] at hc
    obtain ⟨h1, h2, h3, h4, h5, h6, h7, h8, h9, h10, h11, h12⟩ := hc
    have hun : unmodelledMeta.contains c = false := by
      simp [unmodelledMeta, h6, h7, h8, h9, h10, h11, h12]
    rw [rxParse]
    simp only [beq_iff_eq, h1, h2, h3, h4, h5, hun, if_false, Bool.false_eq_true]
    rw [ih { alts := top.alts, atoms := Rx.lit c :: top.atoms, quantified := false } halts
      (fun x hx => hplain x (List.mem_cons_of_mem _ hx))]
    simp

/-- A pattern without metacharacters compiles, to the sequence of its literals. -/
theorem compileRegex_plain (q : String) (hplain : ∀ c ∈ q.data, c ∉ regexMeta) :
    compileRegex q = .ok (Rx.concat (q.data.map Rx.lit)) := by
  unfold compileRegex
  rw [rxParse_plain q.data {} rfl hplain]
  rfl

/-- On a reachable store, for a non-empty query without metacharacters,
`searchMovies` succeeds with exactly the items whose title or description contains
the query as a literal, case-insensitive substring, ordered newest first. -/
theorem searchMovies_plain_query (st : Store) (q : String) (hst : st.fault = none)
    (hq : q ≠ "") (hplain : ∀ c ∈ q.data, c ∉ regexMeta) :
    ∃ ms, movieService.searchMovies st q = some (.ok ms) ∧
      ms.Sorted newestFirst ∧
      ms.Perm (st.docs.filter
        (fun m => decide (containsCI m.title q ∨ containsCI m.description q))) := by
  have hpred : (fun m : Movie =>
      (Rx.concat (q.data.map Rx.lit)).test true m.title.data ||
        (Rx.concat (q.data.map Rx.lit)).test true m.description.data) =
      (fun m => decide (containsCI m.title q ∨ containsCI m.description q)) := by
    funext m
    rw [Bool.eq_iff_iff]
    simp only [Bool.or_eq_true, Rx.test_literals, decide_eq_true_eq, containsCI]
  have hci : ("i" : String).data.contains 'i' = true := by decide
  refine ⟨sortByCreatedAtDesc (st.docs.filter
    (fun m => decide (containsCI m.title q ∨ containsCI m.description q))), ?_,
    (sortByCreatedAtDesc_spec _).2, (sortByCreatedAtDesc_spec _).1⟩
  simp only [movieService.searchMovies, bne_iff_ne, ne_eq, hq, not_false_eq_true, if_true,
    MovieModel.find, hst, compileRegex_plain q hplain, hci, hpred]

/-- C4 at the query `"."` and at the query `"("`: on the sample store, whose items
hold no full stop in any title or description, `searchMovies` with `"."` returns
both items; with `"("` it fails with status `INTERNAL`. With the query `"du"` it
returns only "Dune". -/
theorem searchMovies_reads_query_as_pattern :
    (∀ m ∈ sampleStore.docs, ¬ containsCI m.title "." ∧ ¬ containsCI m.description ".") ∧
      movieService.searchMovies sampleStore "." = some (.ok sampleStore.docs.reverse) ∧
      movieService.searchMovies sampleStore "(" =
        some (.error
          { code := grpc.status.INTERNAL,
            message := "Regular expression is invalid: missing closing parenthesis" }) ∧
      movieService.searchMovies sampleStore "du" = some (.ok (sampleStore.docs.take 1)) := by
  refine ⟨by decide, by decide, by decide, by decide⟩

/-- C5 at the query `"chemistry"`: the word occurs in the description of
"Breaking Bad", yet `searchTvshows` returns no item for it, where the claim says
it returns that item. The movie service's `searchMovies`, on a store holding the
same title and description, does return the item for this query. -/
theorem searchTvshows_ignores_description :
    containsCI "A chemistry teacher turned drug kingpin." "chemistry" ∧
      tvShowService.searchTvshows "chemistry" = some [] ∧
      resolvers.Query.tvShows (some "chemistry") = some [] ∧
      movieService.searchMovies breakingBadStore "chemistry" =
        some (.ok breakingBadStore.docs) := by
  refine ⟨by decide, by decide, by decide, by decide⟩

/-- Every title of the dataset is a string of ASCII characters. -/
theorem tvShowsDB_titles_ascii (s : TVShow) (hs : s ∈ tvShowsDB) : isAscii s.title = true := by
  simp only [tvShowsDB, List.mem_cons, List.mem_singleton, List.not_mem_nil, or_false] at hs
  rcases hs with rfl | rfl <;> decide

/-- What `searchTvshows` computes over the fixed dataset: an empty or absent query
returns every item; a non-empty query of ASCII characters returns a result, and
every result returned holds exactly the items whose title contains the query
case-insensitively, in dataset order. Descriptions play no part. -/
theorem searchTvshows_matches_title (q : String) :
    tvShowService.searchTvshows "" = some tvShowsDB ∧
      resolvers.Query.tvShows none = some tvShowsDB ∧
      (isAscii q = true → ∃ found, tvShowService.searchTvshows q = some found) ∧
      ∀ found, tvShowService.searchTvshows q = some found →
        found.Sublist tvShowsDB ∧
          ∀ s, s ∈ found ↔ s ∈ tvShowsDB ∧ (q = "" ∨ containsCI s.title q) := by
  refine ⟨rfl, rfl, ?_, ?_⟩
  · intro hq
    unfold tvShowService.searchTvshows
    split
    · have h1 : isAscii "Breaking Bad" = true := by decide
      have h2 : isAscii "Game of Thrones" = true := by decide
      simp [tvShowsDB, filterDefined, titleIncludes, toLowerCase, hq, h1, h2]
    · exact ⟨_, rfl⟩
  · intro found hfound
    unfold tvShowService.searchTvshows at hfound
    by_cases hq : q = ""
    · subst hq
      simp only [bne_self_eq_false, Bool.false_eq_true, if_false, Option.some.injEq] at hfound
      subst hfound
      exact ⟨List.Sublist.refl _, fun s => by simp⟩
    · simp only [bne_iff_ne, ne_eq, hq, not_false_eq_true, if_true] at hfound
      obtain ⟨hsub, hmem⟩ := filterDefined_eq_some _ _ _ hfound
      refine ⟨hsub, fun s => ?_⟩
      rw [hmem]
      constructor
      · rintro ⟨hs, hp⟩
        exact ⟨hs, Or.inr ((titleIncludes_eq_some q s true hp).1 rfl)⟩
      · rintro ⟨hs, hq' | hc⟩
        · exact absurd hq' hq
        · refine ⟨hs, ?_⟩
          have hdef : ∃ b, titleIncludes q s = some b :=
            filterDefined_defined_on _ _ _ hfound s hs
          obtain ⟨b, hb⟩ := hdef
          rw [hb, (titleIncludes_eq_some q s b hb).2 hc]

/-- C6 at the id `"nonexistent-id"`: the store holds no such item, the id is not a
native identifier, and `getMovie` fails with status `INTERNAL`, which the gateway's
`GET /movies/:id` answers with 500. For contrast, a native id that no item has
fails with `NOT_FOUND` and is answered with 404. -/
theorem getMovie_malformed_id_is_internal :
    (∀ m ∈ sampleStore.docs, m.id ≠ "nonexistent-id") ∧
      movieService.getMovie sampleStore "nonexistent-id" =
        .error
          { code := grpc.status.INTERNAL,
            message := "Cast to ObjectId failed for value \"nonexistent-id\" " ++
              "(type string) at path \"_id\" for model \"Movie\"" } ∧
      (getMovieById (getMovieOverRpc sampleStore) "nonexistent-id").response.status = 500 ∧
      movieService.getMovie sampleStore "64b7f0c2a1b2c3d4e5f6ffff" =
        .error { code := grpc.status.NOT_FOUND, message := "Movie not found" } ∧
      (getMovieById (getMovieOverRpc sampleStore) "64b7f0c2a1b2c3d4e5f6ffff").response =
        { status := 404, body := .error "Movie not found" } := by
  refine ⟨by decide, by decide, by decide, by decide, by decide⟩

/-- For an id in the native format that no stored item has, on a reachable store,
`getMovie` fails with `NOT_FOUND`. -/
theorem getMovie_absent_native_id (st : Store) (id oid : String) (hst : st.fault = none)
    (hcast : castObjectId id = some oid) (habs : ∀ m ∈ st.docs, m.id ≠ oid) :
    movieService.getMovie st id =
      .error { code := grpc.status.NOT_FOUND, message := "Movie not found" } := by
  have hfind : st.docs.find? (fun m => m.id == oid) = none := by
    rw [List.find?_eq_none]
    intro m hm
    simpa using habs m hm
  simp [movieService.getMovie, MovieModel.findById, hcast, hst, hfind]

/-- The handler `GET /movies/:id` answers an RPC failure with 404 when its status is
`NOT_FOUND` and with 500 otherwise, in both cases with an `{ error }` body. -/
theorem getMovieById_of_error (rpc : String → Except RpcError Movie) (id : String)
    (err : RpcError) (h : rpc id = .error err) :
    (getMovieById rpc id).response.status =
        (if err.code = grpc.status.NOT_FOUND then 404 else 500) ∧
      ∃ msg, (getMovieById rpc id).response.body = .error msg := by
  unfold getMovieById
  rw [h]
  by_cases hc : err.code = grpc.status.NOT_FOUND
  · simp [hc]
  · simp [hc]

/-- C9 at title `""` with a non-empty description: the REST handler rejects the
request with 400 and makes no RPC call, while the GraphQL mutation makes the
`createMovie` RPC call with the empty title and settles with whatever the peer
answers. -/
theorem mutation_forwards_empty_title (rpc : CreateMovieCall → Except RpcError Movie)
    (busUp : Bool) :
    (postMovies rpc busUp { title := .str "", description := .str "Epic" }).effects = [] ∧
      (postMovies rpc busUp { title := .str "", description := .str "Epic" }).response.status
        = 400 ∧
      (resolvers.Mutation.createMovie rpc "" "Epic").effects =
        [.createMovie { title := .str "", description := .str "Epic" }] ∧
      (resolvers.Mutation.createMovie rpc "" "Epic").result =
        rpc { title := .str "", description := .str "Epic" } := by
  rw [postMovies_of_falsy rpc busUp { title := .str "", description := .str "Epic" }
    (Or.inl (by decide))]
  exact ⟨rfl, rfl, rfl, rfl⟩

/-- On two non-empty strings the mutation and the REST handler make the same
single RPC call; the mutation resolves exactly when REST answers 201, with the
same item, and rejects exactly when REST answers 500. -/
theorem mutation_agrees_on_nonempty (rpc : CreateMovieCall → Except RpcError Movie)
    (busUp : Bool) (t d : String) (ht : t ≠ "") (hd : d ≠ "") :
    (resolvers.Mutation.createMovie rpc t d).effects =
        (postMovies rpc busUp { title := .str t, description := .str d }).rpcCalls ∧
      (∀ m, (resolvers.Mutation.createMovie rpc t d).result = .ok m ↔
        (postMovies rpc busUp { title := .str t, description := .str d }).response =
          { status := 201, body := .movie m }) ∧
      ((∃ e, (resolvers.Mutation.createMovie rpc t d).result = .error e) ↔
        (postMovies rpc busUp { title := .str t, description := .str d }).response.status =
          500) := by
  rw [postMovies_of_truthy rpc busUp _ (truthy_str_of_ne_empty _ ht)
    (truthy_str_of_ne_empty _ hd)]
  unfold resolvers.Mutation.createMovie
  cases hr : rpc { title := .str t, description := .str d } with
  | error e => exact ⟨rfl, fun m => by simp [hr], by simp [hr]⟩
  | ok m => exact ⟨rfl, fun m' => by simp [hr], by simp [hr]⟩

/-! ## Properties: the callback of `createMovie` -/

/-- The function `sendMessage` returns normally for both outcomes of the send: it
makes the one send and reports whether it was delivered. -/
theorem sendMessage_returns (busUp : Bool) (topic : String) (payload : Payload) :
    sendMessage busUp topic payload =
      [{ topic := topic, payload := payload, delivered := busUp }] := by
  cases busUp <;> rfl

/-- C11: for every store outcome (the save succeeds or throws) and every bus
outcome (the send of either event succeeds or throws), `createMovie` invokes its
RPC callback exactly once: with `(null, item)` for the saved item when the save
succeeded, and with an error of status `INTERNAL` carrying the store's message
when it threw. The single send the handler makes, of `MOVIE_CREATED` or of
`MOVIE_CREATION_FAILED`, returns to the handler whether or not it was delivered. -/
theorem createMovie_calls_back_once (st : Store) (env : SaveEnv) (busUp : Bool)
    (req : CreateMovieRequest) :
    (∃ r, (movieService.createMovie st env busUp req).callback = [r] ∧
        ((∃ m st', MovieModel.save st env req.title req.description = .ok (m, st') ∧
            r = .ok m) ∨
          ∃ msg, MovieModel.save st env req.title req.description = .error msg ∧
            r = .error { code := grpc.status.INTERNAL, message := msg })) ∧
      (∃ a, (movieService.createMovie st env busUp req).bus = [a] ∧
        a.delivered = busUp ∧
        (a.payload.get "type" = some (.text "MOVIE_CREATED") ∨
          a.payload.get "type" = some (.text "MOVIE_CREATION_FAILED"))) := by
  cases hs : MovieModel.save st env req.title req.description with
  | error msg =>
    rw [createMovie_of_save_failed st env busUp req msg hs]
    exact ⟨⟨_, rfl, Or.inr ⟨msg, rfl, rfl⟩⟩, _, rfl, rfl, Or.inr (by simp [Payload.get])⟩
  | ok p =>
    obtain ⟨m, st'⟩ := p
    rw [createMovie_of_saved st st' env busUp req m hs]
    exact ⟨⟨_, rfl, Or.inl ⟨m, st', rfl, rfl⟩⟩, _, rfl, rfl, Or.inl (by simp [Payload.get])⟩

/-- The four combinations of store and bus outcome on the sample data: one
callback each, `(null, item)` on the working store and `INTERNAL` on the broken
one, the bus up or down. -/
theorem createMovie_callback_samples :
    (movieService.createMovie sampleStore sampleEnv true sampleRequest).callback =
        [.ok sampleCreated] ∧
      (movieService.createMovie sampleStore sampleEnv false sampleRequest).callback =
        [.ok sampleCreated] ∧
      (movieService.createMovie brokenStore sampleEnv true sampleRequest).callback =
        [.error { code := grpc.status.INTERNAL, message := "write refused" }] ∧
      (movieService.createMovie brokenStore sampleEnv false sampleRequest).callback =
        [.error { code := grpc.status.INTERNAL, message := "write refused" }] := by
  refine ⟨by decide, by decide, by decide, by decide⟩

/-! ## Further evaluations -/

/-- A query holding a character outside ASCII, here U+212A, is outside the
modelled part of `toLowerCase`: no result is asserted for it. -/
theorem searchTvshows_outside_ascii : tvShowService.searchTvshows "\u212A" = none := by
  decide

/-- With the movie service's producer unable to send, the save still succeeds and
the gateway still answers 201, while no `MOVIE_CREATED` event has reached the bus:
the one send of the service was not delivered. The comment in the gateway's success
branch, that the service has already published `MOVIE_CREATED` at that point, does
not hold in this run. -/
theorem created_event_lost_on_success :
    (movieService.createMovie sampleStore sampleEnv false sampleRequest).callback =
        [.ok sampleCreated] ∧
      (movieService.createMovie sampleStore sampleEnv false sampleRequest).bus =
        [{ topic := "movies_topic",
           payload := [("type", .text "MOVIE_CREATED"), ("data", .item sampleCreated)],
           delivered := false }] ∧
      (postMovies (rpcReturns sampleCreated) true
          { title := .str "Heat", description := .str "Crime saga" }).response =
        { status := 201, body := .movie sampleCreated } := by
  refine ⟨by decide, by decide, by decide⟩

end Tp7Soa
